import Mathlib

/-
Verification development for the `bst` package: a binary search tree keyed
by topic string, where each node carries a Go map `uuids` used as a set of
subscriber identifiers.  The Go type is

  type BST struct { topic string; uuids map[string]struct{}; left, right *BST }

We embed it shallowly:
  * a nil `*BST` pointer is the constructor `BST.nil`;
  * a Go map used as a set is `Option (List String)`, where `none` is the
    nil map (length 0, lookups miss, `delete` is a no-op, but assigning to
    an entry panics) and `some s` is an allocated map whose key set is the
    duplicate-free list `s`, kept in first-insertion order.  This is a
    faithful model of the map: the code only ever uses `len`, the comma-ok
    lookup, entry assignment and `delete` on it, never iteration, so no
    behaviour of the source can observe more than the key set;
  * `Insert`, which can panic (assignment to an entry of a nil map), returns
    `Option BST` with `none` for the panic;
  * the in-place mutations of `Remove`/`removeHelper` are modelled by
    returning the new value of the subtree the method was called on; the
    `parent` pointer of `removeHelper` is modelled by the `root : Bool` flag
    (`true` iff the Go `parent` argument is nil), since the parent pointer is
    only consulted for (a) the nil test and (b) relinking the parent's child
    pointer, and (b) is performed here by the caller, which rebuilds the
    parent node around the returned subtree.
-/

namespace bst

/-- The tree vertex: Go `type BST struct`.  `BST.nil` is the nil pointer. -/
inductive BST where
  | nil : BST
  | node (topic : String) (uuids : Option (List String)) (left right : BST) : BST
deriving DecidableEq

/-- Go `len` on a possibly-nil map used as a set (`len(nil) = 0`). -/
def mlen : Option (List String) → Nat
  | none => 0
  | some s => s.length

/-- Go comma-ok map lookup `_, ok := m[uuid]` (misses on the nil map). -/
def mmem (uuid : String) : Option (List String) → Bool
  | none => false
  | some s => decide (uuid ∈ s)

/-- Go `delete(m, uuid)` on a possibly-nil map (a no-op on the nil map). -/
def mdelete (uuid : String) : Option (List String) → Option (List String)
  | none => none
  | some s => some (s.erase uuid)

/-- Go map entry assignment `m[uuid] = struct{}{}` on an allocated map:
adds the key if it is not already present. -/
def minsert (uuid : String) (s : List String) : List String :=
  if uuid ∈ s then s else s ++ [uuid]

/-- Lexicographic comparison of character sequences by codepoint. -/
def charsLt : List Char → List Char → Bool
  | _, [] => false
  | [], _ :: _ => true
  | a :: as, b :: bs =>
    if a.toNat < b.toNat then true
    else if b.toNat < a.toNat then false
    else charsLt as bs

/-- Go `<` on strings: lexicographic byte order, which on UTF-8 strings
coincides with lexicographic codepoint order on the character sequence. -/
def strLt (a b : String) : Bool := charsLt a.data b.data

/-- Go `NewBST()`, which returns `&BST{}`: a single zero-value node whose
topic is the empty string and whose `uuids` map is nil. -/
def NewBST : BST := .node "" none .nil .nil

/-- Go `func (b *BST) Insert(uuid string, topic string)`.

The iterative pointer walk is rendered as structural recursion: mutating a
node deep in the tree becomes rebuilding the path to it.  On an exact topic
match the code executes `curr.uuids[uuid] = struct{}{}`, which panics when
the map is nil (modelled by `Option.map` over the `uuids` field, giving
`none`).  Note the branch direction of the source: `if curr.topic < topic`
descends into (or creates) the LEFT child, so topics greater than a node's
topic live in its left subtree. -/
def Insert : BST → String → String → Option BST
  | .nil, _, _ => none
  | .node t m l r, uuid, topic =>
    if t = topic then
      m.map (fun s => .node t (some (minsert uuid s)) l r)
    else if strLt t topic then
      if l = .nil then some (.node t m (.node topic (some [uuid]) .nil .nil) r)
      else (Insert l uuid topic).map (fun x => .node t m x r)
    else
      if r = .nil then some (.node t m l (.node topic (some [uuid]) .nil .nil))
      else (Insert r uuid topic).map (fun x => .node t m l x)

/-- Go `func (b *BST) Get(topic string) map[string]struct{}`.

Returns the node's `uuids` map on an exact match and the nil map when the
walk falls off the tree; a found node whose map is nil is therefore
indistinguishable from not-found.  Same branch direction as `Insert`:
`if curr.topic < topic` descends LEFT. -/
def Get : BST → String → Option (List String)
  | .nil, _ => none
  | .node t m l r, topic =>
    if t = topic then m
    else if strLt t topic then Get l topic
    else Get r topic

/-- Go `func (b *BST) traverseForMinString() (string, map[string]struct{})`:
descend left links while they exist and return that node's topic and map.
The Go method is only ever invoked on a non-nil node (`curr.right` inside
the two-children branch of `removeHelper`), so the `.nil` case below is
unreachable at every call site. -/
def traverseForMinString : BST → String × Option (List String)
  | .nil => ("", none)
  | .node t m l _ => if l = .nil then (t, m) else traverseForMinString l

/-- Go `func (b *BST) removeHelper(uuid string, topic string, parent *BST)`.

`root` is `true` iff the Go `parent` argument is nil.  The source, faithfully:
  * search direction: `if topic < curr.topic` descends LEFT (the opposite
    orientation to `Insert`/`Get`, which send greater topics left);
  * on a match, if `len(curr.uuids) > 1` and `uuid` is present, just delete
    it from the map (a non-member falls through to structural deletion);
  * two children: overwrite `curr.topic, curr.uuids` with
    `curr.right.traverseForMinString()` and recurse as
    `curr.right.removeHelper(curr.topic, uuid, curr)` — note the source
    passes the successor topic in the `uuid` parameter slot and the original
    `uuid` in the `topic` slot;
  * at most one child, nil parent: copy the single child's contents into the
    node in place (value-wise, the node becomes the child); with no children
    the source does nothing (`// single node tree`);
  * at most one child, non-nil parent: relink the parent's child pointer to
    the single child (rendered here by returning the replacement subtree). -/
def removeHelper : BST → String → String → Bool → BST
  | .nil, _, _, _ => .nil
  | .node t m l r, uuid, topic, root =>
    if strLt topic t then
      .node t m (removeHelper l uuid topic false) r
    else if strLt t topic then
      .node t m l (removeHelper r uuid topic false)
    else if 1 < mlen m ∧ mmem uuid m = true then
      .node t (mdelete uuid m) l r
    else if l ≠ .nil ∧ r ≠ .nil then
      .node (traverseForMinString r).1 (traverseForMinString r).2 l
        (removeHelper r (traverseForMinString r).1 uuid false)
    else if root then
      if l ≠ .nil then l
      else if r ≠ .nil then r
      else .node t m l r
    else
      if l ≠ .nil then l else r

/-- Go `func (b *BST) Remove(uuid string, topic string)`, which calls
`b.removeHelper(uuid, topic, nil)`. -/
def Remove (b : BST) (uuid topic : String) : BST := removeHelper b uuid topic true

/-- Spec Scenario A as an operation sequence on a fresh index:
Insert("u1","orders"), Insert("u2","orders"), Insert("u1","alerts"). -/
def scenarioA : Option BST :=
  (Insert NewBST "u1" "orders").bind fun b1 =>
    (Insert b1 "u2" "orders").bind fun b2 =>
      Insert b2 "u1" "alerts"

/-- The Scenario A state after a further `Remove("x","")`, which promotes the
left child of the zero-value root into the root: a reachable state whose root
node holds topic "orders" with subscribers {"u1","u2"}. -/
def promoted : Option BST := scenarioA.map fun b => Remove b "x" ""

/-- Reachable state with a two-children node at the root: insert "m", "b",
"z" (one subscriber each) and promote away the zero-value root via
`Remove("x","")`. -/
def scenarioD : Option BST :=
  (Insert NewBST "u1" "m").bind fun b1 =>
    (Insert b1 "u2" "b").bind fun b2 =>
      (Insert b2 "u3" "z").map fun b3 => Remove b3 "x" ""

/-- Number of nodes of the tree holding exactly the given topic. -/
def countTopic (topic : String) : BST → Nat
  | .nil => 0
  | .node t _ l r =>
    (if t = topic then 1 else 0) + countTopic topic l + countTopic topic r

/-- Every node present in the tree has a non-empty subscriber set. -/
def allNodesNonempty : BST → Bool
  | .nil => true
  | .node _ m l r => decide (0 < mlen m) && allNodesNonempty l && allNodesNonempty r

/-- Assigning a key twice into a map is the same as assigning it once. -/
theorem minsert_idem (uuid : String) (s : List String) :
    minsert uuid (minsert uuid s) = minsert uuid s := by
  unfold minsert
  by_cases h : uuid ∈ s
  · simp [h]
  · simp [h]

end bst

namespace bst

/-- Claim C7: Scenario A. From a fresh index, after Insert("u1","orders"),
Insert("u2","orders"), Insert("u1","alerts"): Get("orders") returns exactly
the subscriber set {"u1","u2"}, Get("alerts") exactly {"u1"}, and
Get("billing") the not-found signal. -/
theorem claim7_scenarioA :
    scenarioA.map (fun b => (Get b "orders", Get b "alerts", Get b "billing"))
      = some (some ["u1", "u2"], some ["u1"], none) := by decide

/-- Claim C10: on a freshly constructed index, before any Insert, Get returns
the not-found signal (the nil map) for every topic string, including the
empty string: the zero-value root matches topic "" but carries a nil
`uuids` map, which is the very value Get uses to signal not-found. -/
theorem claim10_get_fresh_not_found (topic : String) : Get NewBST topic = none := by
  show Get (.node "" none .nil .nil) topic = none
  rw [Get]
  split
  · rfl
  · split <;> rfl

/-- Claim C1 (refuting evidence): membership correctness fails.  In the
Scenario A state, Remove("u1","orders") leaves the index unchanged — the
removeHelper search descends to the right of the zero-value root while
Insert placed every topic to its left — so "u1" is still reported as a
member of "orders" although it was inserted on "orders" and then removed. -/
theorem claim1_membership_violated :
    (scenarioA.map fun b => Remove b "u1" "orders") = scenarioA
      ∧ scenarioA.map (fun b => mmem "u1" (Get (Remove b "u1" "orders") "orders"))
          = some true := by decide

/-- Claim C2 (refuting evidence): Scenario B fails on the code.  After the
Scenario A inserts, Remove("u1","orders") is a silent no-op, so
Get("orders") still returns the set {"u1","u2"} — which contains "u1" —
instead of the specified {"u2"}, which does not. -/
theorem claim2_scenarioB_violated :
    scenarioA.map (fun b => Get (Remove b "u1" "orders") "orders")
        = some (some ["u1", "u2"])
      ∧ mmem "u1" (some ["u1", "u2"]) = true
      ∧ mmem "u1" (some ["u2"]) = false := by decide

/-- Claim C3 (refuting evidence): the three operations do not route lesser
topics to the same side.  At a node with topic "b", Insert places the lesser
topic "a" as the RIGHT child and Get finds it there, while removeHelper's
search locates (and mutates) an "a" node stored as the LEFT child. -/
theorem claim3_direction_mismatch :
    Insert (.node "b" (some ["v"]) .nil .nil) "u" "a"
        = some (.node "b" (some ["v"]) .nil (.node "a" (some ["u"]) .nil .nil))
      ∧ Get (.node "b" (some ["v"]) .nil (.node "a" (some ["u"]) .nil .nil)) "a"
          = some ["u"]
      ∧ Remove (.node "b" (some ["v"]) (.node "a" (some ["u", "w"]) .nil .nil) .nil)
            "u" "a"
          = .node "b" (some ["v"]) (.node "a" (some ["w"]) .nil .nil) .nil := by
  decide

/-- Claim C4 (refuting evidence): removal of an absent identifier is not a
no-op.  `promoted` is the reachable state whose root holds topic "orders"
with the two subscribers "u1" and "u2"; "u3" is not among them, yet
Remove("u3","orders") falls through to structural deletion and tears the
whole "orders" node down, so Get("orders") afterwards reports not-found. -/
theorem claim4_noop_removal_violated :
    promoted
        = some (.node "orders" (some ["u1", "u2"]) .nil
            (.node "alerts" (some ["u1"]) .nil .nil))
      ∧ mmem "u3" (some ["u1", "u2"]) = false
      ∧ (promoted.map fun b => Remove b "u3" "orders")
          = some (.node "alerts" (some ["u1"]) .nil .nil)
      ∧ promoted.map (fun b => Get (Remove b "u3" "orders") "orders")
          = some none := by decide

/-- Claim C5 (refuting evidence): Insert can fail.  On the freshly
constructed index the zero-value root matches topic "", and the code then
assigns into the root's nil `uuids` map, which panics in Go (modelled by
`none`); the same panic occurs after the Scenario A inserts. -/
theorem claim5_insert_empty_topic_panics :
    Insert NewBST "u" "" = none
      ∧ scenarioA.map (fun b => Insert b "u" "") = some none := by decide

/-- Claim C6 (refuting evidence): two-children deletion duplicates the
successor.  In the reachable state `scenarioD` (root "m" with children "z"
and "b"), removing the last subscriber of "m" copies the successor's topic
"b" and set {"u2"} into the root, but the recursive call passes its
arguments swapped — the successor topic in the uuid slot and the uuid in the
topic slot — so the successor node is never deleted and topic "b" ends up in
two nodes instead of exactly one. -/
theorem claim6_successor_duplicated :
    scenarioD
        = some (.node "m" (some ["u1"]) (.node "z" (some ["u3"]) .nil .nil)
            (.node "b" (some ["u2"]) .nil .nil))
      ∧ (scenarioD.map fun b => Remove b "u1" "m")
          = some (.node "b" (some ["u2"]) (.node "z" (some ["u3"]) .nil .nil)
              (.node "b" (some ["u2"]) .nil .nil))
      ∧ scenarioD.map (fun b => countTopic "b" (Remove b "u1" "m")) = some 2 := by
  decide

/-- Claim C9 (refuting evidence): the non-empty-node invariant fails.  The
freshly constructed index already consists of one node (the zero-value root)
whose subscriber set is empty; and in the reachable state `promoted`,
removing the last subscriber "u1" of topic "alerts" leaves the index
completely unchanged — the node is not deleted and "u1" is still stored. -/
theorem claim9_nonempty_invariant_violated :
    allNodesNonempty NewBST = false
      ∧ (promoted.map fun b => Remove b "u1" "alerts") = promoted
      ∧ promoted.map (fun b => Get b "alerts") = some (some ["u1"]) := by decide

/-- Claim C8: Insert is idempotent.  Whenever `Insert b uuid topic` completes
(does not panic) with result `b'`, running the same Insert again on `b'`
completes and returns `b'` unchanged: the exact-match branch re-assigns a
map key that is already present. -/
theorem claim8_insert_idempotent (b : BST) (uuid topic : String) :
    ∀ b', Insert b uuid topic = some b' → Insert b' uuid topic = some b' := by
  induction b with
  | nil => intro b' h; simp [Insert] at h
  | node t m l r ihl ihr =>
    intro b' h
    rw [Insert] at h
    by_cases ht : t = topic
    · subst ht
      rw [if_pos rfl] at h
      cases m with
      | none => simp at h
      | some s =>
        simp only [Option.map_some', Option.some.injEq] at h
        subst h
        rw [Insert, if_pos rfl]
        simp [minsert_idem]
    · rw [if_neg ht] at h
      by_cases hlt : strLt t topic = true
      · rw [if_pos hlt] at h
        by_cases hl : l = BST.nil
        · rw [if_pos hl] at h
          simp only [Option.some.injEq] at h
          subst h
          rw [Insert, if_neg ht, if_pos hlt, if_neg (by simp : ¬ _ = BST.nil)]
          rw [Insert, if_pos rfl]
          simp [minsert]
        · rw [if_neg hl, Option.map_eq_some'] at h
          obtain ⟨l', hl', rfl⟩ := h
          have h2 := ihl l' hl'
          have hl'nil : l' ≠ BST.nil := by
            intro e
            rw [e, Insert] at h2
            exact Option.noConfusion h2
          rw [Insert, if_neg ht, if_pos hlt, if_neg hl'nil, h2]
          rfl
      · rw [if_neg hlt] at h
        by_cases hr : r = BST.nil
        · rw [if_pos hr] at h
          simp only [Option.some.injEq] at h
          subst h
          rw [Insert, if_neg ht, if_neg hlt, if_neg (by simp : ¬ _ = BST.nil)]
          rw [Insert, if_pos rfl]
          simp [minsert]
        · rw [if_neg hr, Option.map_eq_some'] at h
          obtain ⟨r', hr', rfl⟩ := h
          have h2 := ihr r' hr'
          have hr'nil : r' ≠ BST.nil := by
            intro e
            rw [e, Insert] at h2
            exact Option.noConfusion h2
          rw [Insert, if_neg ht, if_neg hlt, if_neg hr'nil, h2]
          rfl

/-- Witness for claim C8 at a concrete input: inserting "u1" on "orders"
into the fresh index once and then a second time returns the same state. -/
theorem claim8_insert_idempotent_witness :
    Insert (.node "" none .nil .nil) "u1" "orders"
        = some (.node "" none (.node "orders" (some ["u1"]) .nil .nil) .nil)
      ∧ Insert (.node "" none (.node "orders" (some ["u1"]) .nil .nil) .nil)
            "u1" "orders"
          = some (.node "" none (.node "orders" (some ["u1"]) .nil .nil) .nil) :=
  ⟨by decide,
    claim8_insert_idempotent (BST.node "" none .nil .nil) "u1" "orders"
      (BST.node "" none (BST.node "orders" (some ["u1"]) .nil .nil) .nil)
      (by decide)⟩

end bst
